import Mathlib

/-!
Shallow embedding of src/internal/config/config.go (package config of
gobot-brightness): the layered configuration resolution and validation
subsystem.  Go ints are modelled as Int (Go integer division truncates
toward zero, hence Int.tdiv), Go (value, error) pairs as Except or as a
pair with an Option error, and the process environment as a function
from variable names to Option String (Go os.Getenv returns the empty
string both for an absent variable and for one set to the empty string,
which getenv below reproduces).
-/

namespace GobotLux

def BotName : String := "gobot_lux"

def defaultLogSensor : Bool := false

def defaultIntervalSeconds : Int := 30

def defaultMetricConfig : String := ":9194"

def maxStatsBucketSeconds : Int := 7200

def defaultStatsBucketsSeconds : List Int := [15, 30, 60, 120, 300, 600, 1800]

/-- MqttConfig is embedded in Config in the source.  Its declaration is not
under src/; the spec (section 3, Broker sub-config) gives its fields: Host,
Topic, StatsTopic and the TLS client key/cert file paths, all strings.
Go zero values (empty strings) are the field defaults. -/
structure MqttConfig where
  Host : String := ""
  Topic : String := ""
  StatsTopic : String := ""
  ClientKeyFile : String := ""
  ClientCertFile : String := ""
deriving DecidableEq

/-- Modelled from the spec: the SensorConfig declaration is not under src/.
Per section 3 it is opaque except that it exposes AioPollingIntervalMs
(integer, milliseconds) and a Validate/Print/ConfigFromEnv contract; the
outcome of its own Validate is represented by the abstract boolean field
sensorValidateOk. -/
structure SensorConfig where
  AioPollingIntervalMs : Int := 0
  sensorValidateOk : Bool := true
deriving DecidableEq

/-- The central configuration aggregate (Config struct in the source).
Unset fields default to Go zero values. -/
structure Config extends MqttConfig, SensorConfig where
  Placement : String := ""
  MetricConfig : String := ""
  IntervalSecs : Int := 0
  StatIntervals : List Int := []
  LogSensor : Bool := false
deriving DecidableEq

/-- Modelled from the spec: defaultSensorConfig is not under src/; section
4.1 only says the sensor sub-config starts at its own defaults, so the
model's field defaults stand in for them. -/
def defaultSensorConfig : SensorConfig := {}

/-- DefaultConfig from the source: fields not listed keep Go zero values. -/
def DefaultConfig : Config :=
  { LogSensor := defaultLogSensor
    IntervalSecs := defaultIntervalSeconds
    MetricConfig := defaultMetricConfig
    StatIntervals := defaultStatsBucketsSeconds
    toSensorConfig := defaultSensorConfig }

/-- The process environment: variable name to value, none when unset. -/
def Env : Type := String → Option String

/-- Go os.Getenv: returns the empty string for an unset variable. -/
def getenv (env : Env) (name : String) : String := (env name).getD ""

/-- Go strings.ToUpper on ASCII input: uppercase every character. -/
def goToUpper (s : String) : String := ⟨s.data.map Char.toUpper⟩

def computeEnvName (name : String) : String :=
  goToUpper BotName ++ "_" ++ goToUpper name

/-- fromEnv from the source: empty lookup result means "not defined". -/
def fromEnv (env : Env) (name : String) : Except String String :=
  let n := computeEnvName name
  let val := getenv env n
  if val = "" then .error "not defined" else .ok val

/-- Go strconv.Atoi: optional sign, then decimal digits only, non-empty,
error when the value does not fit a 64-bit int.  Implemented over the
character list of the string. -/
def goAtoi (s : String) : Option Int :=
  match s.data with
  | [] => none
  | c :: cs =>
    let (neg, digits) :=
      if c = '-' then (true, cs)
      else if c = '+' then (false, cs)
      else (false, c :: cs)
    if digits = [] then none
    else if digits.all Char.isDigit then
      let n : Nat := digits.foldl (fun acc ch => acc * 10 + (ch.toNat - 48)) 0
      let v : Int := if neg then -(n : Int) else (n : Int)
      if -9223372036854775808 ≤ v ∧ v < 9223372036854775808 then some v else none
    else none

/-- Go strconv.ParseBool: accepts exactly the listed literals. -/
def goParseBool (s : String) : Option Bool :=
  if s = "1" ∨ s = "t" ∨ s = "T" ∨ s = "TRUE" ∨ s = "true" ∨ s = "True" then some true
  else if s = "0" ∨ s = "f" ∨ s = "F" ∨ s = "FALSE" ∨ s = "false" ∨ s = "False" then some false
  else none

def fromEnvInt (env : Env) (name : String) : Except String Int :=
  match fromEnv env name with
  | .error e => .error e
  | .ok val =>
    match goAtoi val with
    | none => .error "invalid syntax"
    | some parsed => .ok parsed

def fromEnvBool (env : Env) (name : String) : Except String Bool :=
  match fromEnv env name with
  | .error e => .error e
  | .ok val =>
    match goParseBool val with
    | none => .error "invalid syntax"
    | some parsed => .ok parsed

/-- Modelled from the spec: SensorConfig.ConfigFromEnv is not under src/.
Per sections 4.2 and 6 it overrides its own fields only when the
corresponding namespaced variable is present and well-formed; the model
reads AIO_POLLING_INTERVAL_MS for its one visible field. -/
def SensorConfig.ConfigFromEnv (env : Env) (sc : SensorConfig) : SensorConfig :=
  match fromEnvInt env "AIO_POLLING_INTERVAL_MS" with
  | .ok v => { sc with AioPollingIntervalMs := v }
  | .error _ => sc

/-- ConfigFromEnv from the source: start from DefaultConfig, override each
field independently when its variable is present and parses, then delegate
to the sensor sub-config's own environment resolution. -/
def ConfigFromEnv (env : Env) : Config :=
  let conf := DefaultConfig
  let conf := match fromEnv env "LOCATION" with
    | .ok location => { conf with Placement := location }
    | .error _ => conf
  let conf := match fromEnvBool env "LOG_SENSOR" with
    | .ok logValues => { conf with LogSensor := logValues }
    | .error _ => conf
  let conf := match fromEnvInt env "INTERVAL_S" with
    | .ok intervalSeconds => { conf with IntervalSecs := intervalSeconds }
    | .error _ => conf
  let conf := match fromEnv env "MQTT_HOST" with
    | .ok mqttHost => { conf with Host := mqttHost }
    | .error _ => conf
  let conf := match fromEnv env "MQTT_TOPIC" with
    | .ok mqttTopic => { conf with Topic := mqttTopic }
    | .error _ => conf
  let conf := match fromEnv env "MQTT_STATS_TOPIC" with
    | .ok mqttStatsTopic => { conf with StatsTopic := mqttStatsTopic }
    | .error _ => conf
  let conf := match fromEnv env "METRICS_ADDR" with
    | .ok metricConfig => { conf with MetricConfig := metricConfig }
    | .error _ => conf
  let conf := match fromEnv env "SSL_CLIENT_KEY_FILE" with
    | .ok clientKeyFile => { conf with ClientKeyFile := clientKeyFile }
    | .error _ => conf
  let conf := match fromEnv env "SSL_CLIENT_CERT_FILE" with
    | .ok clientCertFile => { conf with ClientCertFile := clientCertFile }
    | .error _ => conf
  let conf := { conf with toSensorConfig := SensorConfig.ConfigFromEnv env conf.toSensorConfig }
  conf

/-- The variables the environment resolver reads (including the sensor
sub-config's, per the model above), without the computed prefix. -/
def resolverVars : List String :=
  ["LOCATION", "LOG_SENSOR", "INTERVAL_S", "MQTT_HOST", "MQTT_TOPIC",
   "MQTT_STATS_TOPIC", "METRICS_ADDR", "SSL_CLIENT_KEY_FILE",
   "SSL_CLIENT_CERT_FILE", "AIO_POLLING_INTERVAL_MS"]

/-- GetStatIntervalMin from the source: (-1, error) on the empty list,
otherwise a linear scan starting from the first element.  The Go
(value, error) pair is a pair with an Option error message. -/
def GetStatIntervalMin (conf : Config) : Int × Option String :=
  match conf.StatIntervals with
  | [] => (-1, some "empty array provided")
  | x :: xs => ((x :: xs).foldl (fun m v => if v < m then v else m) x, none)

/-- GetStatIntervalMax from the source, dual to GetStatIntervalMin. -/
def GetStatIntervalMax (conf : Config) : Int × Option String :=
  match conf.StatIntervals with
  | [] => (-1, some "empty array provided")
  | x :: xs => ((x :: xs).foldl (fun m v => if v > m then v else m) x, none)

/-- Modelled from the spec: the sensor sub-config's own Validate is not
under src/; its outcome is the abstract field sensorValidateOk. -/
def SensorConfig.Validate (sc : SensorConfig) : Option String :=
  if sc.sensorValidateOk then none else some "invalid sensor config"

/-- The errors Validat2e can return, one per return site, in source order. -/
inductive VError where
  | emptyPlacement
  | intervalTooSmall
  | intervalVsAio
  | intervalTooBig
  | sensorInvalid
  | statsMinTooSmall
  | statsMaxTooBig
deriving DecidableEq

/-- Validat2e from the source: the explicit sequential validation path,
checks in source order; none means success.  Go integer division truncates
toward zero, hence Int.tdiv.  The sensor sub-config error is propagated as
the sensorInvalid kind. -/
def Config.Validat2e (conf : Config) : Option VError :=
  if conf.Placement = "" then some .emptyPlacement
  else if conf.IntervalSecs < 1 then some .intervalTooSmall
  else if conf.IntervalSecs < conf.AioPollingIntervalMs.tdiv 1000 then some .intervalVsAio
  else if conf.IntervalSecs > 300 then some .intervalTooBig
  else if (SensorConfig.Validate conf.toSensorConfig).isSome then some .sensorInvalid
  else if 0 < conf.StatIntervals.length then
    let mn := (GetStatIntervalMin conf).1
    if mn < 1 then some .statsMinTooSmall
    else
      let mx := (GetStatIntervalMax conf).1
      if mx > maxStatsBucketSeconds then some .statsMaxTooBig
      else none
  else none

/-- Modelled from the spec: matchHost is not under src/.  Sections 4.4 and
8: non-empty, no embedded whitespace, optional port suffix. -/
def matchHost (s : String) : Bool :=
  !s.data.isEmpty && s.data.all (fun c => !c.isWhitespace)

/-- Splits a character list at every slash; a helper for matchTopic. -/
def splitSlash : List Char → List (List Char)
  | [] => [[]]
  | c :: cs =>
    if c = '/' then [] :: splitSlash cs
    else
      match splitSlash cs with
      | [] => [[c]]
      | seg :: rest => (c :: seg) :: rest

/-- Modelled from the spec: matchTopic is not under src/.  Sections 4.4 and
8: non-empty, slash-separated non-empty segments, wildcards only as whole
segment tokens, never concatenated with literal text. -/
def matchTopic (s : String) : Bool :=
  !s.data.isEmpty && (splitSlash s.data).all (fun seg =>
    seg = ['+'] || seg = ['#'] ||
    (!seg.isEmpty && !seg.contains '+' && !seg.contains '#'))

/-- Modelled from the spec: the semantics of the third-party tcp_addr rule;
a syntactically plausible host:port address. -/
def isTcpAddr (s : String) : Bool :=
  matchHost s && s.data.contains ':'

/-- Modelled from the spec: the declarative validation path (the source's
Validate method calls the third-party validator engine over the struct
tags declared in src/internal/config/config.go; the engine itself and the
MqttConfig tags are not under src/).  Per the tags and section 4.6 rule 6:
Placement required; MetricConfig empty or a tcp address; IntervalSecs in
[1,300]; every StatIntervals element in [10,3600]; broker host and topic
fields pass their named custom rules. -/
def Config.Validate (conf : Config) : Bool :=
  decide (conf.Placement ≠ "") &&
  (conf.MetricConfig = "" || isTcpAddr conf.MetricConfig) &&
  decide (1 ≤ conf.IntervalSecs) && decide (conf.IntervalSecs ≤ 300) &&
  conf.StatIntervals.all (fun x => decide (10 ≤ x) && decide (x ≤ 3600)) &&
  matchHost conf.Host && matchTopic conf.Topic && matchTopic conf.StatsTopic

/-- The two error kinds ReadJsonConfig can produce. -/
inductive ReadJsonError where
  | readFailure (cause : String)
  | decodeFailure (cause : String)
deriving DecidableEq

/-- ReadJsonConfig from the source.  The two external effects are passed as
parameters: readFile stands for os.ReadFile (the file content or an I/O
error) and unmarshal for json.Unmarshal (the updated value it decoded onto
the given one, plus an optional decode error).  On read failure the result
is (none, read error); otherwise unmarshal is applied to DefaultConfig and
its error, if any, is returned alongside the merged value. -/
def ReadJsonConfig (readFile : Except String String)
    (unmarshal : String → Config → Config × Option String) :
    Option Config × Option ReadJsonError :=
  match readFile with
  | .error e => (none, some (.readFailure e))
  | .ok fileContent =>
    let ret := DefaultConfig
    let res := unmarshal fileContent ret
    (some res.1, res.2.map .decodeFailure)

/-! Helper lemmas about the environment resolver. -/

lemma fromEnv_of_none (env : Env) (name : String)
    (h : env (computeEnvName name) = none) :
    fromEnv env name = .error "not defined" := by
  simp [fromEnv, getenv, h]

lemma fromEnv_of_empty (env : Env) (name : String)
    (h : env (computeEnvName name) = some "") :
    fromEnv env name = .error "not defined" := by
  simp [fromEnv, getenv, h]

lemma fromEnv_of_some (env : Env) (name v : String)
    (h : env (computeEnvName name) = some v) (hv : v ≠ "") :
    fromEnv env name = .ok v := by
  simp [fromEnv, getenv, h, hv]

lemma fromEnvInt_of_err (env : Env) (name : String)
    (h : fromEnv env name = .error "not defined") :
    fromEnvInt env name = .error "not defined" := by
  unfold fromEnvInt
  rw [h]

lemma fromEnvBool_of_err (env : Env) (name : String)
    (h : fromEnv env name = .error "not defined") :
    fromEnvBool env name = .error "not defined" := by
  unfold fromEnvBool
  rw [h]

lemma sensorConfigFromEnv_of_err (env : Env) (sc : SensorConfig)
    (h : fromEnvInt env "AIO_POLLING_INTERVAL_MS" = .error "not defined") :
    SensorConfig.ConfigFromEnv env sc = sc := by
  unfold SensorConfig.ConfigFromEnv
  rw [h]

set_option maxHeartbeats 1000000 in
/-- Field-wise characterization of the environment resolver: each field is
set by its own variable lookup independently of every other. -/
lemma configFromEnv_eq (env : Env) :
    ConfigFromEnv env =
      { Placement := (match fromEnv env "LOCATION" with | .ok v => v | .error _ => DefaultConfig.Placement),
        LogSensor := (match fromEnvBool env "LOG_SENSOR" with | .ok v => v | .error _ => DefaultConfig.LogSensor),
        IntervalSecs := (match fromEnvInt env "INTERVAL_S" with | .ok v => v | .error _ => DefaultConfig.IntervalSecs),
        MetricConfig := (match fromEnv env "METRICS_ADDR" with | .ok v => v | .error _ => DefaultConfig.MetricConfig),
        StatIntervals := DefaultConfig.StatIntervals,
        toMqttConfig :=
          { Host := (match fromEnv env "MQTT_HOST" with | .ok v => v | .error _ => ""),
            Topic := (match fromEnv env "MQTT_TOPIC" with | .ok v => v | .error _ => ""),
            StatsTopic := (match fromEnv env "MQTT_STATS_TOPIC" with | .ok v => v | .error _ => ""),
            ClientKeyFile := (match fromEnv env "SSL_CLIENT_KEY_FILE" with | .ok v => v | .error _ => ""),
            ClientCertFile := (match fromEnv env "SSL_CLIENT_CERT_FILE" with | .ok v => v | .error _ => "") },
        toSensorConfig := SensorConfig.ConfigFromEnv env defaultSensorConfig } := by
  unfold ConfigFromEnv
  cases fromEnv env "LOCATION" <;>
    cases fromEnvBool env "LOG_SENSOR" <;>
      cases fromEnvInt env "INTERVAL_S" <;>
        cases fromEnv env "MQTT_HOST" <;>
          cases fromEnv env "MQTT_TOPIC" <;>
            cases fromEnv env "MQTT_STATS_TOPIC" <;>
              cases fromEnv env "METRICS_ADDR" <;>
                cases fromEnv env "SSL_CLIENT_KEY_FILE" <;>
                  cases fromEnv env "SSL_CLIENT_CERT_FILE" <;>
                    rfl

/-! Helper lemmas about the linear min/max scans. -/

lemma foldl_min_le_init (l : List Int) (a : Int) :
    l.foldl (fun m v => if v < m then v else m) a ≤ a := by
  induction l generalizing a with
  | nil => simp
  | cons x xs ih =>
    simp only [List.foldl_cons]
    exact le_trans (ih (if x < a then x else a)) (by split <;> omega)

lemma foldl_min_le_mem (l : List Int) (a x : Int) (hx : x ∈ l) :
    l.foldl (fun m v => if v < m then v else m) a ≤ x := by
  induction l generalizing a with
  | nil => cases hx
  | cons y ys ih =>
    simp only [List.foldl_cons]
    rcases List.mem_cons.mp hx with rfl | hmem
    · exact le_trans (foldl_min_le_init ys (if x < a then x else a)) (by split <;> omega)
    · exact ih _ hmem

lemma foldl_min_mem (l : List Int) (a : Int) :
    l.foldl (fun m v => if v < m then v else m) a = a ∨
    l.foldl (fun m v => if v < m then v else m) a ∈ l := by
  induction l generalizing a with
  | nil => left; rfl
  | cons y ys ih =>
    simp only [List.foldl_cons]
    rcases ih (if y < a then y else a) with heq | hmem
    · rw [heq]
      split
      · right; exact List.mem_cons_self y ys
      · left; rfl
    · right; exact List.mem_cons_of_mem y hmem

lemma foldl_max_ge_init (l : List Int) (a : Int) :
    a ≤ l.foldl (fun m v => if v > m then v else m) a := by
  induction l generalizing a with
  | nil => simp
  | cons x xs ih =>
    simp only [List.foldl_cons]
    exact le_trans (by split <;> omega) (ih (if x > a then x else a))

lemma foldl_max_ge_mem (l : List Int) (a x : Int) (hx : x ∈ l) :
    x ≤ l.foldl (fun m v => if v > m then v else m) a := by
  induction l generalizing a with
  | nil => cases hx
  | cons y ys ih =>
    simp only [List.foldl_cons]
    rcases List.mem_cons.mp hx with rfl | hmem
    · exact le_trans (by split <;> omega) (foldl_max_ge_init ys (if x > a then x else a))
    · exact ih _ hmem

lemma foldl_max_mem (l : List Int) (a : Int) :
    l.foldl (fun m v => if v > m then v else m) a = a ∨
    l.foldl (fun m v => if v > m then v else m) a ∈ l := by
  induction l generalizing a with
  | nil => left; rfl
  | cons y ys ih =>
    simp only [List.foldl_cons]
    rcases ih (if y > a then y else a) with heq | hmem
    · rw [heq]
      split
      · right; exact List.mem_cons_self y ys
      · left; rfl
    · right; exact List.mem_cons_of_mem y hmem

lemma getStatIntervalMin_cons (conf : Config) (x : Int) (xs : List Int)
    (h : conf.StatIntervals = x :: xs) :
    GetStatIntervalMin conf =
      ((x :: xs).foldl (fun m v => if v < m then v else m) x, none) := by
  unfold GetStatIntervalMin
  rw [h]

lemma getStatIntervalMax_cons (conf : Config) (x : Int) (xs : List Int)
    (h : conf.StatIntervals = x :: xs) :
    GetStatIntervalMax conf =
      ((x :: xs).foldl (fun m v => if v > m then v else m) x, none) := by
  unfold GetStatIntervalMax
  rw [h]

/-! Inversion lemmas for the sequential validation path. -/

/-- Validat2e succeeds exactly when every sequential rule holds. -/
lemma validat2e_eq_none_iff (conf : Config) :
    conf.Validat2e = none ↔
      (conf.Placement ≠ "" ∧ 1 ≤ conf.IntervalSecs ∧
       conf.AioPollingIntervalMs.tdiv 1000 ≤ conf.IntervalSecs ∧
       conf.IntervalSecs ≤ 300 ∧ conf.sensorValidateOk = true ∧
       (conf.StatIntervals.length = 0 ∨
         (1 ≤ (GetStatIntervalMin conf).1 ∧ (GetStatIntervalMax conf).1 ≤ 7200))) := by
  unfold Config.Validat2e SensorConfig.Validate maxStatsBucketSeconds
  split_ifs with h1 h2 h3 h4 h5 h6 h7 h8 <;> simp_all
  all_goals (split_ifs with h9 h10 <;> simp_all [List.length_pos])

/-- Validat2e reports the cross-field error exactly when the first two
checks pass and the cross-field comparison trips. -/
lemma validat2e_eq_vsAio_iff (conf : Config) :
    conf.Validat2e = some VError.intervalVsAio ↔
      (conf.Placement ≠ "" ∧ 1 ≤ conf.IntervalSecs ∧
       conf.IntervalSecs < conf.AioPollingIntervalMs.tdiv 1000) := by
  unfold Config.Validat2e SensorConfig.Validate maxStatsBucketSeconds
  split_ifs with h1 h2 h3 h4 h5 h6 h7 h8 <;> simp_all
  all_goals (split_ifs with h9 h10 <;> simp_all)

/-! Claim theorems. -/

/-- C2: for every configuration with non-empty Placement,
AioPollingIntervalMs = 0, a valid sensor sub-config and stats buckets
satisfying their rules, the sequential validation succeeds exactly when
1 ≤ IntervalSecs ≤ 300; in particular it succeeds for every IntervalSecs
in that range and fails for 0 and 301. -/
theorem validat2e_interval_bounds_iff (conf : Config)
    (hp : conf.Placement ≠ "") (ha : conf.AioPollingIntervalMs = 0)
    (hs : conf.sensorValidateOk = true)
    (hst : conf.StatIntervals = [] ∨
      (1 ≤ (GetStatIntervalMin conf).1 ∧ (GetStatIntervalMax conf).1 ≤ 7200)) :
    conf.Validat2e = none ↔ (1 ≤ conf.IntervalSecs ∧ conf.IntervalSecs ≤ 300) := by
  rw [validat2e_eq_none_iff, ha]
  rcases hst with hempty | ⟨hmn, hmx⟩
  · simp [hp, hs, hempty, Int.zero_tdiv]
    omega
  · simp [hp, hs, hmn, hmx, Int.zero_tdiv]
    omega

def c2cfg : Config := { DefaultConfig with Placement := "x" }

def c2cfgBig : Config := { DefaultConfig with Placement := "x", IntervalSecs := 301 }

/-- Witness for C2 at the interval values 30 and 301. -/
theorem validat2e_interval_bounds_iff_witness :
    Config.Validat2e c2cfg = none ∧ Config.Validat2e c2cfgBig ≠ none := by
  constructor
  · exact (validat2e_interval_bounds_iff c2cfg (by decide) (by decide) (by decide)
      (Or.inr (by decide))).mpr (by decide)
  · intro h
    have h2 := (validat2e_interval_bounds_iff c2cfgBig (by decide) (by decide) (by decide)
      (Or.inr (by decide))).mp h
    exact absurd h2 (by decide)

/-- C3: once the placement and lower-bound checks pass, the cross-field
rule fails exactly when IntervalSecs < AioPollingIntervalMs/1000 under
truncate-toward-zero division; consequently for every AioPollingIntervalMs
in [0,1999], IntervalSecs = 1 satisfies the cross-field rule. -/
theorem validat2e_cross_field_rule :
    (∀ conf : Config, conf.Placement ≠ "" → 1 ≤ conf.IntervalSecs →
      (conf.Validat2e = some VError.intervalVsAio ↔
        conf.IntervalSecs < conf.AioPollingIntervalMs.tdiv 1000)) ∧
    (∀ conf : Config, conf.Placement ≠ "" → conf.IntervalSecs = 1 →
      0 ≤ conf.AioPollingIntervalMs → conf.AioPollingIntervalMs ≤ 1999 →
      conf.Validat2e ≠ some VError.intervalVsAio) := by
  constructor
  · intro conf hp hi
    rw [validat2e_eq_vsAio_iff]
    simp [hp, hi]
  · intro conf hp hi h0 h1999 h
    rw [validat2e_eq_vsAio_iff] at h
    have htd : conf.AioPollingIntervalMs.tdiv 1000 = conf.AioPollingIntervalMs / 1000 :=
      Int.tdiv_eq_ediv h0 (by omega)
    omega

def c3cfg : Config :=
  { DefaultConfig with
      Placement := "x"
      IntervalSecs := 1
      toSensorConfig := { AioPollingIntervalMs := 1999 } }

/-- Witness for C3 at IntervalSecs = 1 and AioPollingIntervalMs = 1999. -/
theorem validat2e_cross_field_rule_witness :
    Config.Validat2e c3cfg ≠ some VError.intervalVsAio :=
  validat2e_cross_field_rule.2 c3cfg (by decide) (by decide) (by decide) (by decide)

def c4cfg : Config :=
  { DefaultConfig with
      Placement := "room"
      IntervalSecs := 301
      toSensorConfig := { AioPollingIntervalMs := 400000 } }

/-- C4 counterexample: with Placement non-empty, IntervalSecs = 301 > 300
and IntervalSecs < AioPollingIntervalMs/1000 = 400, the reported error is
the cross-field one, not the rule-2 upper-bound violation the claim
predicts: the source checks the cross-field rule between the two bound
checks. -/
theorem validat2e_rule_order_counterexample :
    Config.Validat2e c4cfg = some VError.intervalVsAio ∧
    Config.Validat2e c4cfg ≠ some VError.intervalTooBig := by
  decide

/-- C4 amended: for every configuration with non-empty Placement where
IntervalSecs ≥ 1, IntervalSecs > 300 and IntervalSecs <
AioPollingIntervalMs/1000, the reported error is the cross-field error,
because the sequential validator checks the cross-field rule before the
upper bound. -/
theorem validat2e_cross_field_before_upper_bound (conf : Config)
    (hp : conf.Placement ≠ "") (hlo : 1 ≤ conf.IntervalSecs)
    (hhi : 300 < conf.IntervalSecs)
    (hcross : conf.IntervalSecs < conf.AioPollingIntervalMs.tdiv 1000) :
    conf.Validat2e = some VError.intervalVsAio := by
  rw [validat2e_eq_vsAio_iff]
  exact ⟨hp, hlo, hcross⟩

/-- Witness for the amended C4 at the counterexample configuration. -/
theorem validat2e_cross_field_before_upper_bound_witness :
    Config.Validat2e c4cfg = some VError.intervalVsAio :=
  validat2e_cross_field_before_upper_bound c4cfg (by decide) (by decide) (by decide) (by decide)

/-- C10: the Default Builder's output does not itself pass validation:
DefaultConfig leaves Placement empty, so the sequential validator always
returns the empty-placement error on it. -/
theorem validat2e_default_config_fails :
    DefaultConfig.Placement = "" ∧
    Config.Validat2e DefaultConfig = some VError.emptyPlacement := by
  decide

def c6cfg : Config := { DefaultConfig with Placement := "x", StatIntervals := [10, 7300] }

/-- C6: for every configuration with a non-empty StatIntervals list whose
minimum is below 1 or whose maximum exceeds 7200, validation fails; in
particular a list with maximum 7300 fails the system-wide ceiling. -/
theorem validat2e_stats_min_max_bounds :
    (∀ conf : Config, conf.StatIntervals ≠ [] →
      ((GetStatIntervalMin conf).1 < 1 ∨ 7200 < (GetStatIntervalMax conf).1) →
      conf.Validat2e ≠ none) ∧
    Config.Validat2e c6cfg = some VError.statsMaxTooBig := by
  constructor
  · intro conf hne hbad heq
    rw [validat2e_eq_none_iff] at heq
    obtain ⟨-, -, -, -, -, hstats⟩ := heq
    rcases hstats with hlen | ⟨hmn, hmx⟩
    · exact hne (List.length_eq_zero.mp hlen)
    · omega
  · decide

def c6cfgW : Config := { DefaultConfig with StatIntervals := [0] }

/-- Witness for C6 at a list whose minimum is 0. -/
theorem validat2e_stats_min_max_bounds_witness :
    Config.Validat2e c6cfgW ≠ none :=
  validat2e_stats_min_max_bounds.1 c6cfgW (by decide) (Or.inl (by decide))

/-- C5: on the declarative validation path, every configuration whose
StatIntervals list contains an element outside [10,3600] fails
validation. -/
theorem validate_stat_element_out_of_bounds (conf : Config) (x : Int)
    (hmem : x ∈ conf.StatIntervals) (hout : x < 10 ∨ 3600 < x) :
    conf.Validate = false := by
  unfold Config.Validate
  have hall : conf.StatIntervals.all (fun y => decide (10 ≤ y) && decide (y ≤ 3600)) = false := by
    rw [List.all_eq_false]
    refine ⟨x, hmem, ?_⟩
    simp only [Bool.and_eq_true, decide_eq_true_eq, not_and]
    omega
  rw [hall]
  simp

def c5cfg : Config := { DefaultConfig with StatIntervals := [5] }

/-- Witness for C5 at a list containing 5. -/
theorem validate_stat_element_out_of_bounds_witness :
    Config.Validate c5cfg = false :=
  validate_stat_element_out_of_bounds c5cfg 5 (by decide) (by decide)

/-- C7: on every non-empty list GetStatIntervalMin returns the minimum
element with no error and GetStatIntervalMax the maximum with no error;
on the default bucket list they return (15, none) and (1800, none); on
the empty list each returns an error. -/
theorem getStatInterval_min_max_correct :
    (∀ conf : Config, conf.StatIntervals ≠ [] →
       (GetStatIntervalMin conf).2 = none ∧
       (GetStatIntervalMin conf).1 ∈ conf.StatIntervals ∧
       (∀ x ∈ conf.StatIntervals, (GetStatIntervalMin conf).1 ≤ x) ∧
       (GetStatIntervalMax conf).2 = none ∧
       (GetStatIntervalMax conf).1 ∈ conf.StatIntervals ∧
       (∀ x ∈ conf.StatIntervals, x ≤ (GetStatIntervalMax conf).1)) ∧
    GetStatIntervalMin DefaultConfig = (15, none) ∧
    GetStatIntervalMax DefaultConfig = (1800, none) ∧
    (∀ conf : Config, conf.StatIntervals = [] →
       GetStatIntervalMin conf = (-1, some "empty array provided") ∧
       GetStatIntervalMax conf = (-1, some "empty array provided")) := by
  refine ⟨?_, by decide, by decide, ?_⟩
  · intro conf hne
    obtain ⟨x, xs, hl⟩ := List.exists_cons_of_ne_nil hne
    rw [getStatIntervalMin_cons conf x xs hl, getStatIntervalMax_cons conf x xs hl, hl]
    refine ⟨rfl, ?_, ?_, rfl, ?_, ?_⟩
    · rcases foldl_min_mem (x :: xs) x with heq | hmem
      · rw [heq]; exact List.mem_cons_self x xs
      · exact hmem
    · intro y hy
      exact foldl_min_le_mem (x :: xs) x y hy
    · rcases foldl_max_mem (x :: xs) x with heq | hmem
      · rw [heq]; exact List.mem_cons_self x xs
      · exact hmem
    · intro y hy
      exact foldl_max_ge_mem (x :: xs) x y hy
  · intro conf hl
    constructor
    · unfold GetStatIntervalMin
      rw [hl]
    · unfold GetStatIntervalMax
      rw [hl]

/-- Witness for C7 on the default bucket list. -/
theorem getStatInterval_min_max_correct_witness :
    (GetStatIntervalMin DefaultConfig).1 ≤ 15 ∧
    (15 : Int) ≤ (GetStatIntervalMax DefaultConfig).1 :=
  ⟨(getStatInterval_min_max_correct.1 DefaultConfig (by decide)).2.2.1 15 (by decide),
   (getStatInterval_min_max_correct.1 DefaultConfig (by decide)).2.2.2.2.2 15 (by decide)⟩

/-- C8: ReadJsonConfig on an unreadable path returns no configuration
together with a read error; when the file is readable but decoding
reports an error, it returns the default-based value the decoder
produced, alongside the decode error. -/
theorem readJsonConfig_error_paths :
    (∀ (e : String) (unmarshal : String → Config → Config × Option String),
       ReadJsonConfig (.error e) unmarshal = (none, some (.readFailure e))) ∧
    (∀ (content : String) (unmarshal : String → Config → Config × Option String)
       (c : Config) (e : String),
       unmarshal content DefaultConfig = (c, some e) →
       ReadJsonConfig (.ok content) unmarshal = (some c, some (.decodeFailure e))) := by
  constructor
  · intro e unmarshal
    rfl
  · intro content unmarshal c e h
    simp only [ReadJsonConfig, h]
    rfl

/-- Witness for C8 with a decoder that reports an error. -/
theorem readJsonConfig_error_paths_witness :
    ReadJsonConfig (.ok "not json") (fun _ c => (c, some "invalid character"))
      = (some DefaultConfig, some (.decodeFailure "invalid character")) :=
  readJsonConfig_error_paths.2 "not json" (fun _ c => (c, some "invalid character"))
    DefaultConfig "invalid character" rfl

/-- C9: a variable set to the empty string is treated identically to an
absent one: the lookup reports an error and the corresponding string
field keeps its prior default, so no string field can be set to the
empty string through the environment. -/
theorem fromEnv_empty_equals_absent :
    (∀ (env : Env) (name : String),
       env (computeEnvName name) = some "" ∨ env (computeEnvName name) = none →
       fromEnv env name = .error "not defined") ∧
    (∀ env : Env, env (computeEnvName "LOCATION") = some "" →
       (ConfigFromEnv env).Placement = DefaultConfig.Placement) ∧
    (∀ env : Env, env (computeEnvName "MQTT_HOST") = some "" →
       (ConfigFromEnv env).Host = DefaultConfig.Host) ∧
    (∀ env : Env, env (computeEnvName "MQTT_TOPIC") = some "" →
       (ConfigFromEnv env).Topic = DefaultConfig.Topic) ∧
    (∀ env : Env, env (computeEnvName "MQTT_STATS_TOPIC") = some "" →
       (ConfigFromEnv env).StatsTopic = DefaultConfig.StatsTopic) ∧
    (∀ env : Env, env (computeEnvName "METRICS_ADDR") = some "" →
       (ConfigFromEnv env).MetricConfig = DefaultConfig.MetricConfig) ∧
    (∀ env : Env, env (computeEnvName "SSL_CLIENT_KEY_FILE") = some "" →
       (ConfigFromEnv env).ClientKeyFile = DefaultConfig.ClientKeyFile) ∧
    (∀ env : Env, env (computeEnvName "SSL_CLIENT_CERT_FILE") = some "" →
       (ConfigFromEnv env).ClientCertFile = DefaultConfig.ClientCertFile) := by
  refine ⟨?_, ?_, ?_, ?_, ?_, ?_, ?_, ?_⟩
  · intro env name h
    rcases h with h | h
    · exact fromEnv_of_empty env name h
    · exact fromEnv_of_none env name h
  all_goals
    intro env h
  all_goals
    (rw [configFromEnv_eq, fromEnv_of_empty env _ h]; try rfl)

def c9env : Env := fun _ => some ""

/-- Witness for C9 on an environment where every variable is set to the
empty string. -/
theorem fromEnv_empty_equals_absent_witness :
    fromEnv c9env "LOCATION" = .error "not defined" ∧
    (ConfigFromEnv c9env).Host = DefaultConfig.Host :=
  ⟨fromEnv_empty_equals_absent.1 c9env "LOCATION" (Or.inl rfl),
   fromEnv_empty_equals_absent.2.2.1 c9env rfl⟩

/-- C1: environment overrides are independent and frame-preserving: an
environment in which, among the resolver's variables, only
GOBOT_LUX_INTERVAL_S is set and has value "45" yields the Default
Builder's output with only IntervalSecs changed to 45; a value that fails
to parse leaves the field at its default while other overrides still
apply, and no error is produced (ConfigFromEnv is total). -/
theorem configFromEnv_overrides_independent :
    (∀ env : Env,
      env (computeEnvName "INTERVAL_S") = some "45" →
      (∀ v ∈ resolverVars, v ≠ "INTERVAL_S" → env (computeEnvName v) = none) →
      ConfigFromEnv env = { DefaultConfig with IntervalSecs := 45 }) ∧
    (∀ env : Env,
      env (computeEnvName "INTERVAL_S") = some "notanumber" →
      (ConfigFromEnv env).IntervalSecs = DefaultConfig.IntervalSecs) ∧
    (∀ env : Env,
      env (computeEnvName "INTERVAL_S") = some "notanumber" →
      env (computeEnvName "LOCATION") = some "kitchen" →
      (ConfigFromEnv env).Placement = "kitchen") := by
  refine ⟨?_, ?_, ?_⟩
  · intro env h45 hrest
    have eL := fromEnv_of_none env "LOCATION" (hrest "LOCATION" (by decide) (by decide))
    have eB := fromEnvBool_of_err env "LOG_SENSOR"
      (fromEnv_of_none env "LOG_SENSOR" (hrest "LOG_SENSOR" (by decide) (by decide)))
    have eI : fromEnvInt env "INTERVAL_S" = .ok 45 := by
      unfold fromEnvInt
      rw [fromEnv_of_some env "INTERVAL_S" "45" h45 (by decide)]
      rfl
    have eH := fromEnv_of_none env "MQTT_HOST" (hrest "MQTT_HOST" (by decide) (by decide))
    have eT := fromEnv_of_none env "MQTT_TOPIC" (hrest "MQTT_TOPIC" (by decide) (by decide))
    have eS := fromEnv_of_none env "MQTT_STATS_TOPIC"
      (hrest "MQTT_STATS_TOPIC" (by decide) (by decide))
    have eM := fromEnv_of_none env "METRICS_ADDR" (hrest "METRICS_ADDR" (by decide) (by decide))
    have eK := fromEnv_of_none env "SSL_CLIENT_KEY_FILE"
      (hrest "SSL_CLIENT_KEY_FILE" (by decide) (by decide))
    have eC := fromEnv_of_none env "SSL_CLIENT_CERT_FILE"
      (hrest "SSL_CLIENT_CERT_FILE" (by decide) (by decide))
    have eA := fromEnvInt_of_err env "AIO_POLLING_INTERVAL_MS"
      (fromEnv_of_none env "AIO_POLLING_INTERVAL_MS"
        (hrest "AIO_POLLING_INTERVAL_MS" (by decide) (by decide)))
    rw [configFromEnv_eq, eL, eB, eI, eH, eT, eS, eM, eK, eC,
      sensorConfigFromEnv_of_err env defaultSensorConfig eA]
    rfl
  · intro env h
    have eI : fromEnvInt env "INTERVAL_S" = .error "invalid syntax" := by
      unfold fromEnvInt
      rw [fromEnv_of_some env "INTERVAL_S" "notanumber" h (by decide)]
      rfl
    rw [configFromEnv_eq, eI]
  · intro env h hloc
    rw [configFromEnv_eq, fromEnv_of_some env "LOCATION" "kitchen" hloc (by decide)]

def c1env : Env := fun n => if n = "GOBOT_LUX_INTERVAL_S" then some "45" else none

def c1envBad : Env := fun n =>
  if n = "GOBOT_LUX_INTERVAL_S" then some "notanumber"
  else if n = "GOBOT_LUX_LOCATION" then some "kitchen" else none

/-- Witness for C1 on concrete environments. -/
theorem configFromEnv_overrides_independent_witness :
    ConfigFromEnv c1env = { DefaultConfig with IntervalSecs := 45 } ∧
    (ConfigFromEnv c1envBad).IntervalSecs = DefaultConfig.IntervalSecs ∧
    (ConfigFromEnv c1envBad).Placement = "kitchen" :=
  ⟨configFromEnv_overrides_independent.1 c1env (by decide) (by decide),
   configFromEnv_overrides_independent.2.1 c1envBad (by decide),
   configFromEnv_overrides_independent.2.2 c1envBad (by decide) (by decide)⟩

end GobotLux
